import Mathlib

/-!
Verification of the eteTools result-aggregation engine.

Shallow embedding of the eteTools repository (src/eteTools.py,
src/lib/EteResults.py, src/lib/utility.py, src/compareLRT.py) and proofs
about the claims of its specification.

Modelling conventions:
* Python floats are modelled as exact rationals (`ℚ`); the true chi-squared
  distribution used for the numeric p-value check is modelled over `ℝ`.
* `scipy.stats.chi2.cdf` is an external library collaborator; the LRT engine
  is parameterised over it (`cdf : ℚ → ℕ → ℚ`).
* pandas DataFrames are modelled as lists of row records; `pd.concat` is
  modelled with its error behaviour on empty input; a Python `None` slipping
  into a concat is modelled via `Option`.
* Fallible Python code (attribute errors, ValueError on unpacking) is
  modelled with `Except String`.
-/

namespace EteTools

/-- One fitted branch: branch identifier together with its rate metrics
(dN, dS, omega, ...), as stored under `parameters -> branches` in the
parsed CodeML dictionary. -/
structure BranchEntry where
  branch : String
  metrics : List (String × ℚ)
deriving DecidableEq, Repr

/-- Input row of the branch-site BEB table (utility.py `getBebBs`, the
rows obtained from `pd.read_csv` with columns pos, aa, "0", "1", "2a",
"2b" after the "5"/"6" columns are dropped). -/
structure BsRow where
  pos : ℕ
  aa : String
  p0 : ℚ
  p1 : ℚ
  p2a : ℚ
  p2b : ℚ
deriving DecidableEq, Repr

/-- Output row of `getBebBs` (columns Gene, model, pos, aa, prob). -/
structure BsBebRow where
  gene : String
  model : String
  pos : ℕ
  aa : String
  prob : ℚ
deriving DecidableEq, Repr

/-- Input row of the site-model BEB table (utility.py `getBebSite`, the
rows obtained from `pd.read_csv` with columns pos, aa, prob, mean_w, tmp,
err; `tmp` is dropped before use).  The probability field is kept as the
raw string since it may carry `*`/`**` significance markers. -/
structure SiteRow where
  pos : ℕ
  aa : String
  prob : String
  mean_w : ℚ
  tmp : String
  err : ℚ
deriving DecidableEq, Repr

/-- Output row of `getBebSite` (columns Gene, model, pos, aa, prob,
mean_w, err; prob stripped of its asterisks). -/
structure SiteBebRow where
  gene : String
  model : String
  pos : ℕ
  aa : String
  prob : String
  mean_w : ℚ
  err : ℚ
deriving DecidableEq, Repr

/-- A BEB row as stored in a model's `cml["BEB"]` DataFrame: either the
branch-site shape or the site shape (pd.concat unions the two schemas). -/
inductive BebEntry where
  | bs : BsBebRow → BebEntry
  | site : SiteBebRow → BebEntry
deriving DecidableEq, Repr

/-- The parsed output of one fitted model for one gene, as assembled by
`utility.readCodemlOut`: `np` (free-parameter count, converted with
`int()` in `getLRT`), `lnL`, the per-branch rates block, and the model's
BEB DataFrame.  `beb = none` models the case where `getBebSite` fell off
the end of the function and Python returned `None` (utility.py lines
126-127 store that result unchecked). -/
structure ModelData where
  np : Int
  lnl : ℚ
  branchRates : List BranchEntry
  beb : Option (List BebEntry)
deriving DecidableEq, Repr

/-- One gene's results (the data held by an `EteResults` object): the gene
name and the ordered model → parsed-output association built by
`readCodemlOut`.  `self.models` and the keys of `self.codeml` are derived
from the same directory listing, so the model list is the key list. -/
structure GeneResults where
  name : String
  codeml : List (String × ModelData)
deriving DecidableEq, Repr

/-- Embeds `self.models` (EteResults.py line 20): the fitted-model names. -/
def models (g : GeneResults) : List String :=
  g.codeml.map Prod.fst

/-- Dictionary lookup `self.codeml[m]`. -/
def cmlFind (g : GeneResults) (m : String) : Option ModelData :=
  (g.codeml.find? (fun p => p.1 == m)).map Prod.snd

/-- The static allowed-comparison registry `null_alt` of
`EteResults.getLRT` (EteResults.py lines 26-37). -/
def null_alt : List (String × List String) :=
  [ ("M0", ["M1", "M2", "M8", "M7", "bsA", "bsA1", "bsC", "bsD", "b_free"]),
    ("M1", ["M2", "M8", "bsA", "bsA1", "bsC", "bsD"]),
    ("M2", ["bsC", "bsD"]),
    ("M8", ["bsC", "bsD"]),
    ("M7", ["M2", "M8", "bsA", "bsA1", "bsC", "bsD"]),
    ("bsA", ["bsC", "bsD"]),
    ("bsA1", ["M2", "M8", "bsA", "bsC", "bsD"]),
    ("bsC", ["bsD"]),
    ("b_free", ["bsA", "bsA1", "bsC", "bsD"]),
    ("b_neut", ["bsA", "bsA1", "bsC", "bsD", "b_free"]) ]

/-- Step 1 of `getLRT` (line 41): restrict the registry to null models
present in `self.models` (`{k: null_alt[k] for k in self.models if k in
null_alt.keys()}`).  A Python dict keyed by the same name twice holds one
entry; here a duplicated model name yields a duplicated pair, but all
later uses go through key lookup or emptiness, which cannot tell the two
apart. -/
def validNull (g : GeneResults) : List (String × List String) :=
  (models g).filterMap fun k =>
    (null_alt.find? (fun p => p.1 == k)).map fun p => (k, p.2)

/-- Steps 2-3 of `getLRT` (lines 46-57): intersect each null model's
alternative list with the present models (`list(set(self.models) &
set(alternates))`, modelled keeping registry order) and drop null models
whose intersection is empty. -/
def validComparisons (g : GeneResults) : List (String × List String) :=
  ((validNull g).map fun p => (p.1, p.2.filter fun a => (models g).contains a)).filter
    fun p => !p.2.isEmpty

/-- One LRT comparison row (the dict wrapped into a one-row DataFrame at
EteResults.py lines 104-140).  The empty-string statistic and p-value of
the invalid-orientation branch are modelled as `none`. -/
structure LRTRow where
  file : String
  null : String
  alt : String
  df : ℕ
  lrt : Option ℚ
  pval : Option ℚ
  note : String
deriving DecidableEq, Repr

/-- The body of the comparison loop of `getLRT` (lines 94-140): degrees of
freedom `abs(int(np_alt) - int(np_null))`, then either the invalid-
orientation row (`lnl1 < lnl0`) or the statistic `2*(lnl1 - lnl0)` and
p-value `1 - stats.chi2.cdf(diff, degFree)`.  `cdf` is the external
`scipy.stats.chi2.cdf` collaborator. -/
def lrtRow (cdf : ℚ → ℕ → ℚ) (file nullM altM : String) (nd ad : ModelData) : LRTRow :=
  let degFree := (ad.np - nd.np).natAbs
  if ad.lnl < nd.lnl then
    ⟨file, nullM, altM, degFree, none, none, "lnl1 < lnl0"⟩
  else
    let diff := 2 * (ad.lnl - nd.lnl)
    ⟨file, nullM, altM, degFree, some diff, some (1 - cdf diff degFree), ""⟩

/-- The warning condition of `getLRT` (line 60): the message logged when
the valid-comparison dict is empty. -/
def lrtEmptyWarning (g : GeneResults) : Bool :=
  (validComparisons g).isEmpty

/-- Embeds `EteResults.getLRT` (EteResults.py lines 23-147): returns the list of
LRT comparison rows for one gene.  The early-return on an empty
valid-comparison dict yields the empty table; otherwise rows are produced
by iterating `self.models` and, for each model present as a key, its
retained alternatives.  The intermediate `codeml` info dict (lines 67-84)
is the key lookup `cmlFind`. -/
def getLRT (cdf : ℚ → ℕ → ℚ) (g : GeneResults) : List LRTRow :=
  let na := validComparisons g
  if na.isEmpty then []
  else
    (models g).flatMap fun m =>
      match na.find? (fun p => p.1 == m), cmlFind g m with
      | some p, some nd =>
          p.2.filterMap fun alt =>
            (cmlFind g alt).map fun ad => lrtRow cdf g.name m alt nd ad
      | _, _ => []

/-! ## BEB extraction (utility.py `getBebBs`, `getBebSite`) -/

/-- Whether a string contains the two-asterisk significance marker, i.e.
whether the regex search `df["prob"].str.contains("\*\*")` matches
(the escaped pattern matches the literal substring `**`). -/
def hasStar2L : List Char → Bool
  | '*' :: '*' :: _ => true
  | _ :: rest => hasStar2L rest
  | [] => false

/-- String front-end of `hasStar2L`. -/
def hasStar2 (s : String) : Bool :=
  hasStar2L s.data

/-- A character stripped by Python `str.strip("\*\*")`: the argument is
the character set `{'\', '*'}`. -/
def isStripChar (c : Char) : Bool :=
  c == '*' || c == '\\'

/-- Embeds `df["prob"].str.strip("\*\*")`: remove leading and trailing `*` and
`\` characters. -/
def stripStars (s : String) : String :=
  ⟨((s.data.dropWhile isStripChar).reverse.dropWhile isStripChar).reverse⟩

/-- Embeds `utility.getBebBs` (utility.py lines 279-315), from the point where
the raw `rst` text has been parsed into rows (the regex/`read_csv` step
is the external text parser): insert Gene and model, sum the 2a and 2b
rate classes into `prob`, drop gap rows (`aa == "-"`), and return the
rows with `prob >= 0.99` (or the empty table when there are none). -/
def getBebBs (gene model : String) (rows : List BsRow) : List BsBebRow :=
  let df := rows.map fun r => (⟨gene, model, r.pos, r.aa, r.p2a + r.p2b⟩ : BsBebRow)
  let df := df.filter fun r => r.aa != "-"
  if df.any (fun r => (99 : ℚ)/100 ≤ r.prob) then
    df.filter fun r => (99 : ℚ)/100 ≤ r.prob
  else []

/-- Embeds `utility.getBebSite` (utility.py lines 318-351), from the parsed-row
point.  `isFloat` models the pandas dtype inference applied by
`read_csv`: the prob column has dtype `float64` exactly when every entry
parses as a float (`df.all (isFloat ·.prob)`).  The function mirrors the
source's control flow, including the two paths that fall off the end of
the Python function and return `None` (modelled as `none`): a float64
prob column, and a `**`-filter result that is empty.  A table of exactly
one data row returns the empty table. -/
def getBebSite (isFloat : String → Bool) (gene model : String)
    (rows : List SiteRow) : Option (List SiteBebRow) :=
  if rows.length ≠ 1 then
    let df := rows.filter fun r => r.aa != "-"
    if !(df.all fun r => isFloat r.prob) then
      let df2 := df.filter fun r => hasStar2 r.prob
      if !df2.isEmpty then
        some (df2.map fun r =>
          ⟨gene, model, r.pos, r.aa, stripStars r.prob, r.mean_w, r.err⟩)
      else none
    else none
  else some []

/-! ## Summary/branch reshaping and per-gene views -/

/-- The `model_types` category table of `EteResults.getSummary`
(EteResults.py lines 151-157). -/
def model_types : List (String × List String) :=
  [ ("null", ["M0"]),
    ("site", ["M1", "M2", "M7", "M8"]),
    ("branch-site", ["bsA", "bsA1"]),
    ("clade", ["bsC", "bsD"]),
    ("branch", ["b_free", "b_neut"]) ]

/-- The category of a model (`[k for k, v in model_types.items() if model
in v][0]`; `none` models the IndexError a model outside the table would
raise). -/
def modelCategory (m : String) : Option String :=
  (model_types.find? fun p => p.2.contains m).map Prod.fst

/-- One row of the corpus branch table: gene, branch identifier, and that
branch's rate metrics (`utility.getBranchResults` inserts `file` and
`branch` in front of the metric columns). -/
structure BranchRow where
  file : String
  branch : String
  metrics : List (String × ℚ)
deriving DecidableEq, Repr

/-- Embeds `utility.getBranchResults` (utility.py lines 192-200): one row per
branch entry.  (The source's `pd.concat` would raise on a model with an
empty branches dict; no claim exercises that case.) -/
def getBranchResults (input : List BranchEntry) (file : String) : List BranchRow :=
  input.map fun b => ⟨file, b.branch, b.metrics⟩

/-- The branch rows emitted by `EteResults.getSummary` for one gene
(EteResults.py lines 207-292): the null, site and branch cases append
`getBranchResults` output; branch-site and clade models emit none.  The
summary columns joined next to these rows are not needed by any claim
and are not modelled. -/
def geneBranchRows (g : GeneResults) : List BranchRow :=
  g.codeml.flatMap fun p =>
    match modelCategory p.1 with
    | some "null" => getBranchResults p.2.branchRates g.name
    | some "site" => getBranchResults p.2.branchRates g.name
    | some "branch" => getBranchResults p.2.branchRates g.name
    | _ => []

/-- The categories whose summary list is non-empty for one gene, in the
fixed dict order of `getSummary`/`mergeSummaryDicts`; these are the keys
that survive `buildSummaryTable`'s empty-value cleaning. -/
def geneSummaryCats (g : GeneResults) : List String :=
  model_types.filterMap fun c =>
    if g.codeml.any (fun p => c.2.contains p.1) then some c.1 else none

/-- Embeds `pd.concat` over a list of DataFrames that may also contain Python
`None` values (as a stored `getBebSite` result can be, see
`readCodemlOut` lines 126-127): an empty list raises ValueError and a
`None` element raises TypeError. -/
def pdConcatO {α : Type} (ts : List (Option (List α))) : Except String (List α) :=
  if ts.isEmpty then .error "ValueError: No objects to concatenate"
  else if ts.any (fun t => t.isNone) then
    .error "TypeError: cannot concatenate object of type NoneType"
  else .ok (ts.filterMap id).flatten

/-- Embeds `pd.concat` over a list of genuine DataFrames: only the empty-list
ValueError applies. -/
def pdConcatL {α : Type} (ts : List (List α)) : Except String (List α) :=
  if ts.isEmpty then .error "ValueError: No objects to concatenate"
  else .ok ts.flatten

/-- Embeds `EteResults.getSites` (EteResults.py lines 300-308):
`pd.concat([self.codeml[model]["BEB"] for model in self.codeml])`. -/
def getSites (g : GeneResults) : Except String (List BebEntry) :=
  pdConcatO (g.codeml.map fun p => p.2.beb)

/-! ## Corpus aggregator (utility.py `parseCodeMl`, eteTools.py main) -/

/-- A directory entry as returned by `os.scandir` (the objects
`utility.listDirs` collects). -/
structure DirEntry where
  path : String
  name : String
deriving DecidableEq, Repr

/-- A Python value that may be passed to `EteResults.__init__`: either a
`DirEntry` (the documented argument type) or a plain string (what
`parseCodeMl` actually passes, `outdir.path`). -/
inductive PyVal where
  | str : String → PyVal
  | entry : DirEntry → PyVal
deriving DecidableEq, Repr

/-- Python attribute access `v.path`: an AttributeError on a str. -/
def getAttrPath : PyVal → Except String String
  | .str _ => .error "AttributeError: 'str' object has no attribute 'path'"
  | .entry e => .ok e.path

/-- Python attribute access `v.name`: an AttributeError on a str. -/
def getAttrName : PyVal → Except String String
  | .str _ => .error "AttributeError: 'str' object has no attribute 'name'"
  | .entry e => .ok e.name

/-- Embeds `EteResults.__init__` (EteResults.py lines 13-21) applied to a Python
value: evaluates `entry.path` and `entry.name`, then loads the gene's
models and parsed CodeML data.  `load` stands for the external
file-system parsing performed by `utility.getModels` and
`utility.readCodemlOut` on the directory path. -/
def eteResultsInit (load : String → List (String × ModelData)) (v : PyVal) :
    Except String GeneResults := do
  let p ← getAttrPath v
  let n ← getAttrName v
  .ok ⟨n, load p⟩

/-- The warning messages logged while deriving one gene's LRT view (the
`logging.warning` at EteResults.py lines 61-63). -/
def geneWarnings (g : GeneResults) : List String :=
  if lrtEmptyWarning g then
    ["No LRT statistics can be run based on the provided models. Returning empty data frame."]
  else []

/-- The per-gene loop of `utility.parseCodeMl` (utility.py lines
253-262), with the warnings it logs: for each directory it constructs
`EteResults(outdir.path)` anew for each of the three views.  Since
`outdir.path` is a string, each construction raises an AttributeError
(see `eteResultsInit`), aborting the loop at the first gene.  The
summary-dict aggregate, unused by every claim, is tracked only through
its surviving category keys. -/
def parseGenes (cdf : ℚ → ℕ → ℚ) (load : String → List (String × ModelData)) :
    List DirEntry →
      Except String
        (List (List LRTRow) × List (List String) × List (List BranchRow) ×
          List (List BebEntry)) × List String
  | [] => (.ok ([], [], [], []), [])
  | d :: rest =>
    match eteResultsInit load (.str d.path) with
    | .error e => (.error e, [])
    | .ok g1 =>
      let l := getLRT cdf g1
      let w1 := geneWarnings g1
      match eteResultsInit load (.str d.path) with
      | .error e => (.error e, w1)
      | .ok g2 =>
        let s := geneSummaryCats g2
        let b := geneBranchRows g2
        match eteResultsInit load (.str d.path) with
        | .error e => (.error e, w1)
        | .ok g3 =>
          match getSites g3 with
          | .error e => (.error e, w1)
          | .ok beb =>
            match parseGenes cdf load rest with
            | (.error e, w) => (.error e, w1 ++ w)
            | (.ok (ls, ss, bs, ds), w) =>
                (.ok (l :: ls, s :: ss, b :: bs, beb :: ds), w1 ++ w)

/-- Embeds `mergeSummaryDicts` key survival (utility.py lines 216-238): the
categories, in fixed dict order, contributed by at least one gene. -/
def mergedCats (css : List (List String)) : List String :=
  (model_types.map Prod.fst).filter fun c => css.any fun cs => cs.contains c

/-- Embeds `utility.parseCodeMl` (utility.py lines 241-270): run the per-gene
loop, then concatenate the four aggregates (`pd.concat` raising
ValueError on an empty corpus) and return the four-element tuple. -/
def parseCodeMl (cdf : ℚ → ℕ → ℚ) (load : String → List (String × ModelData))
    (input : List DirEntry) :
    Except String (List LRTRow × List String × List BranchRow × List BebEntry) ×
      List String :=
  match parseGenes cdf load input with
  | (.error e, w) => (.error e, w)
  | (.ok (ls, ss, bs, ds), w) =>
    (do
      let lrt ← pdConcatL ls
      let branches ← pdConcatL bs
      let beb ← pdConcatL ds
      .ok (lrt, mergedCats ss, branches, beb), w)

/-- The assignment `pd_lrt, dict_summary, pd_branches =
utility.parseCodeMl(outdirs)` (eteTools.py line 75): unpacking
`parseCodeMl`'s four-element return into three names raises
`ValueError: too many values to unpack`. -/
def unpack3 {α β γ δ : Type} (_t : α × β × γ × δ) : Except String (α × β × γ) :=
  .error "ValueError: too many values to unpack (expected 3)"

/-- The files written by the entry point on its success path (eteTools.py
lines 80-84): one `model-<key>.csv` per summary-dict key, then `lrt.csv`
and, unconditionally, `branches.csv`. -/
def writesOf (summaryKeys : List String) : List String :=
  (summaryKeys.map fun k => "model-" ++ k ++ ".csv") ++ ["lrt.csv", "branches.csv"]

/-- The `__main__` block of eteTools.py (lines 69-86): parse the corpus,
unpack three values from the four-tuple, and write the output files.
Returns the list of files written (or the propagated Python error)
together with the warnings logged along the way. -/
def mainRun (cdf : ℚ → ℕ → ℚ) (load : String → List (String × ModelData))
    (input : List DirEntry) : Except String (List String) × List String :=
  match parseCodeMl cdf load input with
  | (.error e, w) => (.error e, w)
  | (.ok r, w) =>
    match unpack3 r with
    | .error e => (.error e, w)
    | .ok (_, keys, _) => (.ok (writesOf keys), w)

/-- The branch rows determined by the corpus data: what the per-gene
branch tables of `getSummary` concatenate to across the corpus.  This is
the quantity the specification's "concatenated branch-rate rows" refers
to. -/
def corpusBranchRows (load : String → List (String × ModelData))
    (input : List DirEntry) : List BranchRow :=
  (input.map fun d => geneBranchRows ⟨d.name, load d.path⟩).flatten

/-! ## The parseCodeMl loop with the constructor-argument slip repaired

To expose how often the gene directories are parsed we model the loop of
`parseCodeMl` with the `DirEntry` itself passed to the constructor (the
evident intent of lines 253-256); the faithful string-passing version
(`parseGenes`) faults before parsing anything.  Each construction runs
`EteResults.__init__`, whose line 21 invokes `utility.readCodemlOut` —
one full parse of every result file of the gene. -/

/-- A repaired `EteResults(outdir)` construction, paired with the number
of `readCodemlOut` invocations (always one) it performs. -/
def eteGeneCounted (load : String → List (String × ModelData)) (d : DirEntry) :
    GeneResults × ℕ :=
  (⟨d.name, load d.path⟩, 1)

/-- The per-gene loop of `parseCodeMl` with the slip repaired, returning
the aggregates and the total number of `readCodemlOut` invocations.  The
loop body constructs three `EteResults` objects per gene — one per view
(lines 254-256) — so each gene's result files are parsed three times. -/
def parseGenesFixed (cdf : ℚ → ℕ → ℚ) (load : String → List (String × ModelData)) :
    List DirEntry →
      Except String
        (List (List LRTRow) × List (List BranchRow) × List (List BebEntry)) × ℕ
  | [] => (.ok ([], [], []), 0)
  | d :: rest =>
    let (g1, c1) := eteGeneCounted load d
    let l := getLRT cdf g1
    let (g2, c2) := eteGeneCounted load d
    let b := geneBranchRows g2
    let (g3, c3) := eteGeneCounted load d
    match getSites g3 with
    | .error e => (.error e, c1 + c2 + c3)
    | .ok beb =>
      match parseGenesFixed cdf load rest with
      | (.error e, c) => (.error e, c1 + c2 + c3 + c)
      | (.ok (ls, bs, ds), c) => (.ok (l :: ls, b :: bs, beb :: ds), c1 + c2 + c3 + c)

/-! ## The chi-squared distribution -/

/-- The cumulative distribution function of the chi-squared distribution
with an even number `2*k` of degrees of freedom, in its closed (Erlang)
form: `CDF(x) = 1 - exp(-x/2) * Σ_{i<k} (x/2)^i / i!`.  This is the
mathematical function `scipy.stats.chi2.cdf(x, 2*k)` computes. -/
noncomputable def chi2cdfEven (k : ℕ) (x : ℝ) : ℝ :=
  1 - Real.exp (-(x/2)) * ∑ i ∈ Finset.range k, (x/2)^i / (Nat.factorial i)

/-! ## Concrete fixtures used by the witnesses -/

/-- A concrete stand-in for the external chi-squared CDF collaborator. -/
def cdf0 : ℚ → ℕ → ℚ := fun _ _ => 0

/-- Fitted-model data: np 1, lnL -100. -/
def md0 : ModelData := { np := 1, lnl := -100, branchRates := [], beb := some [] }

/-- Fitted-model data: np 3, lnL -97 (better than `md0`). -/
def md1 : ModelData := { np := 3, lnl := -97, branchRates := [], beb := some [] }

/-- Fitted-model data: np 3, lnL -101 (worse than `md0`). -/
def md2 : ModelData := { np := 3, lnl := -101, branchRates := [], beb := some [] }

/-- A gene with models M0 and M1, the alternative scoring better. -/
def gM01 : GeneResults := { name := "gene1", codeml := [("M0", md0), ("M1", md1)] }

/-- A gene with models M0 and M1, the alternative scoring worse. -/
def gInv : GeneResults := { name := "gene2", codeml := [("M0", md0), ("M1", md2)] }

/-- A gene with only model bsA1 fit. -/
def gBsA1 : GeneResults := { name := "gene3", codeml := [("bsA1", md0)] }

/-- The single LRT row of `gM01`. -/
def rowM01 : LRTRow := lrtRow cdf0 gM01.name "M0" "M1" md0 md1

/-- The single LRT row of `gInv`. -/
def rowInv : LRTRow := lrtRow cdf0 gInv.name "M0" "M1" md0 md2

/-- Fixture: a pandas dtype oracle that never reports float64. -/
def isFloat0 : String → Bool := fun _ => false

/-- Fixture: two branch-site BEB input rows, one of them a gap row. -/
def bsRows0 : List BsRow :=
  [⟨15, "K", 0, 0, 1/2, 1/2⟩, ⟨16, "-", 0, 0, 1/2, 1/2⟩]

/-- Fixture: two site BEB input rows, one starred and one not. -/
def siteRows0 : List SiteRow :=
  [⟨15, "K", "0.998**", 3, "+-", 1⟩, ⟨16, "R", "0.910", 2, "+-", 1⟩]

/-- Fixture: a site BEB table with two rows, no `**` marker anywhere. -/
def siteRowsPlain : List SiteRow :=
  [⟨15, "K", "0.910", 3, "+-", 1⟩, ⟨16, "R", "0.870", 2, "+-", 1⟩]

/-- Fixture: model data whose stored BEB table is Python `None`. -/
def mdNoneBeb : ModelData := { np := 5, lnl := -90, branchRates := [], beb := none }

/-- Fixture: a gene whose M2 model carries a `None` BEB table. -/
def gNoneBeb : GeneResults := { name := "gene4", codeml := [("M2", mdNoneBeb)] }

/-- Fixture: one gene directory entry. -/
def dirG1 : DirEntry := ⟨"results/gene1", "gene1"⟩

/-- Fixture: a loader giving every gene only the branch-site model bsA,
whose category contributes no branch-rate rows. -/
def loadBsA : String → List (String × ModelData) := fun _ => [("bsA", md0)]

/-- Fixture: model data for a site model with a non-empty BEB table. -/
def mdBeb : ModelData :=
  { np := 5, lnl := -90, branchRates := [],
    beb := some [BebEntry.site ⟨"gene1", "M2", 15, "K", "0.998", 3, 1⟩] }

/-- Fixture: a loader giving every gene the site model M2 with BEB rows. -/
def loadBeb : String → List (String × ModelData) := fun _ => [("M2", mdBeb)]

/-! ## Structure of the rows produced by getLRT -/

theorem lrtRow_file (cdf : ℚ → ℕ → ℚ) (file nullM altM : String) (nd ad : ModelData) :
    (lrtRow cdf file nullM altM nd ad).file = file := by
  by_cases h : ad.lnl < nd.lnl <;> simp [lrtRow, h]

theorem lrtRow_null (cdf : ℚ → ℕ → ℚ) (file nullM altM : String) (nd ad : ModelData) :
    (lrtRow cdf file nullM altM nd ad).null = nullM := by
  by_cases h : ad.lnl < nd.lnl <;> simp [lrtRow, h]

theorem lrtRow_alt (cdf : ℚ → ℕ → ℚ) (file nullM altM : String) (nd ad : ModelData) :
    (lrtRow cdf file nullM altM nd ad).alt = altM := by
  by_cases h : ad.lnl < nd.lnl <;> simp [lrtRow, h]

theorem lrtRow_df (cdf : ℚ → ℕ → ℚ) (file nullM altM : String) (nd ad : ModelData) :
    (lrtRow cdf file nullM altM nd ad).df = (ad.np - nd.np).natAbs := by
  by_cases h : ad.lnl < nd.lnl <;> simp [lrtRow, h]

/-- Every row of `getLRT` comes from `lrtRow` applied to the stored data
of its null and alternative models, both of which are present in the
fitted-model list, and its (null, alt) pair is sanctioned by the
`null_alt` registry. -/
theorem mem_getLRT {cdf : ℚ → ℕ → ℚ} {g : GeneResults} {row : LRTRow}
    (h : row ∈ getLRT cdf g) :
    ∃ nd ad alts,
      cmlFind g row.null = some nd ∧
      cmlFind g row.alt = some ad ∧
      row = lrtRow cdf g.name row.null row.alt nd ad ∧
      row.null ∈ models g ∧
      row.alt ∈ models g ∧
      null_alt.find? (fun p => p.1 == row.null) = some (row.null, alts) ∧
      row.alt ∈ alts := by
  by_cases he : (validComparisons g).isEmpty
  · simp [getLRT, he] at h
  · simp only [getLRT, he, Bool.false_eq_true, if_false] at h
    rw [List.mem_flatMap] at h
    obtain ⟨m, hm, hrow⟩ := h
    rcases hna : (validComparisons g).find? (fun p => p.1 == m) with _ | p <;>
      rcases hcm : cmlFind g m with _ | nd <;>
        rw [hna, hcm] at hrow <;> simp only at hrow
    · simp at hrow
    · simp at hrow
    · simp at hrow
    rw [List.mem_filterMap] at hrow
    obtain ⟨alt, halt, hsome⟩ := hrow
    rw [Option.map_eq_some'] at hsome
    obtain ⟨ad, hca, hrow_eq⟩ := hsome
    have hnull : row.null = m := by rw [← hrow_eq, lrtRow_null]
    have haltx : row.alt = alt := by rw [← hrow_eq, lrtRow_alt]
    have hp1 : p.1 = m := by
      have := List.find?_some hna
      simpa using this
    have hpmem : p ∈ validComparisons g := List.mem_of_find?_eq_some hna
    simp only [validComparisons] at hpmem
    rw [List.mem_filter] at hpmem
    obtain ⟨hmap, hne⟩ := hpmem
    rw [List.mem_map] at hmap
    obtain ⟨q, hq, hqp⟩ := hmap
    simp only [validNull] at hq
    rw [List.mem_filterMap] at hq
    obtain ⟨k, hk, hq2⟩ := hq
    rw [Option.map_eq_some'] at hq2
    obtain ⟨r, hfr, hqr⟩ := hq2
    subst hqr
    subst hqp
    simp only at hp1
    subst hp1
    have r1k : r.1 = k := by
      have := List.find?_some hfr
      simpa using this
    have haltp : alt ∈ r.2 ∧ alt ∈ models g := by
      simp only at halt
      rw [List.mem_filter] at halt
      refine ⟨halt.1, ?_⟩
      have := halt.2
      simpa [List.elem_iff] using this
    refine ⟨nd, ad, r.2, ?_, ?_, ?_, ?_, ?_, ?_, ?_⟩
    · rw [hnull]; exact hcm
    · rw [haltx]; exact hca
    · rw [hnull, haltx]; exact hrow_eq.symm
    · rw [hnull]; exact hm
    · rw [haltx]; exact haltp.2
    · rw [hnull]
      have : r = (k, r.2) := by rw [← r1k]
      rw [← this]
      exact hfr
    · rw [haltx]; exact haltp.1

/-! ## Claim C1 -/

/-- The registry's `find?` at a key agrees with membership: the keys of
`null_alt` are pairwise distinct. -/
theorem null_alt_find_of_mem {n : String} {alts : List String}
    (h : (n, alts) ∈ null_alt) :
    null_alt.find? (fun p => p.1 == n) = some (n, alts) := by
  fin_cases h <;> rfl

/-- C1: for every LRT comparison row whose alternative log-likelihood is
at least the null's, the statistic is `2*(lnl_alt - lnl_null)`, the
degrees of freedom are `|np_alt - np_null|`, and the p-value is
`1 - cdf(statistic, df)` for the chi-squared CDF collaborator `cdf`;
moreover at df = 2 the upper-tail chi-squared probability of statistic
6.0 is within 0.0005 of 0.0498. -/
theorem C1_lrt_statistic_and_pvalue (cdf : ℚ → ℕ → ℚ) (g : GeneResults)
    (row : LRTRow) (nd ad : ModelData) (hrow : row ∈ getLRT cdf g)
    (hn : cmlFind g row.null = some nd) (ha : cmlFind g row.alt = some ad)
    (hge : nd.lnl ≤ ad.lnl) :
    row.df = (ad.np - nd.np).natAbs ∧
    row.lrt = some (2 * (ad.lnl - nd.lnl)) ∧
    row.pval = some (1 - cdf (2 * (ad.lnl - nd.lnl)) (ad.np - nd.np).natAbs) ∧
    |(1 - chi2cdfEven 1 6) - 4.98/100| < 1/2000 := by
  obtain ⟨nd', ad', alts, hn', ha', heq, -, -, -, -⟩ := mem_getLRT hrow
  rw [hn] at hn'; rw [ha] at ha'
  injection hn' with hnd; injection ha' with had
  subst hnd; subst had
  have hlt : ¬ ad.lnl < nd.lnl := not_lt.mpr hge
  refine ⟨?_, ?_, ?_, ?_⟩
  · rw [heq]; simp [lrtRow, hlt]
  · rw [heq]; simp [lrtRow, hlt]
  · rw [heq]; simp [lrtRow, hlt]
  · have hsimp : 1 - chi2cdfEven 1 6 = Real.exp (-3) := by
      simp [chi2cdfEven, Finset.sum_range_one]
      norm_num
    have h1 : (2.7182818283 : ℝ) < Real.exp 1 := Real.exp_one_gt_d9
    have h2 : Real.exp 1 < 2.7182818286 := Real.exp_one_lt_d9
    have e3 : Real.exp 3 = (Real.exp 1) ^ 3 := by
      rw [show (3 : ℝ) = ((3 : ℕ) : ℝ) * 1 by norm_num, Real.exp_nat_mul]
    have hlo : (20 : ℝ) < Real.exp 3 := by
      rw [e3]
      calc (20 : ℝ) < 2.7182818283 ^ 3 := by norm_num
        _ < (Real.exp 1) ^ 3 := by
            exact pow_lt_pow_left₀ h1 (by norm_num) (by norm_num)
    have hhi : Real.exp 3 < 20.2 := by
      rw [e3]
      calc (Real.exp 1) ^ 3 < 2.7182818286 ^ 3 :=
            pow_lt_pow_left₀ h2 (le_of_lt (Real.exp_pos 1)) (by norm_num)
        _ < 20.2 := by norm_num
    have hinvlo : (20.2 : ℝ)⁻¹ < Real.exp (-3) := by
      rw [Real.exp_neg]
      exact inv_strictAnti₀ (Real.exp_pos 3) hhi
    have hinvhi : Real.exp (-3) < (20 : ℝ)⁻¹ := by
      rw [Real.exp_neg]
      exact inv_strictAnti₀ (by norm_num) hlo
    rw [hsimp, abs_sub_lt_iff]
    constructor
    · have : ((20 : ℝ))⁻¹ - 4.98/100 < 1/2000 := by norm_num
      linarith
    · have : (4.98 : ℝ)/100 - (20.2 : ℝ)⁻¹ < 1/2000 := by norm_num
      linarith

/-- Witness for C1 at the gene `gM01`. -/
theorem C1_lrt_statistic_and_pvalue_witness :
    rowM01 ∈ getLRT cdf0 gM01 ∧
    cmlFind gM01 rowM01.null = some md0 ∧
    cmlFind gM01 rowM01.alt = some md1 ∧
    md0.lnl ≤ md1.lnl ∧
    (rowM01.df = (md1.np - md0.np).natAbs ∧
     rowM01.lrt = some (2 * (md1.lnl - md0.lnl)) ∧
     rowM01.pval = some (1 - cdf0 (2 * (md1.lnl - md0.lnl)) (md1.np - md0.np).natAbs) ∧
     |(1 - chi2cdfEven 1 6) - 4.98/100| < 1/2000) :=
  ⟨List.Mem.head _, rfl, rfl, by decide,
   C1_lrt_statistic_and_pvalue cdf0 gM01 rowM01 md0 md1 (List.Mem.head _) rfl rfl
     (by decide)⟩

/-! ## Claim C2 -/

/-- C2: a row is produced for a (null, alt) pair only if the pair is in
the `null_alt` registry and both models are present in the gene's
fitted-model list; and a registry null model all of whose alternatives
are absent contributes no row. -/
theorem C2_lrt_rows_registry (cdf : ℚ → ℕ → ℚ) (g : GeneResults) :
    (∀ row ∈ getLRT cdf g,
      row.null ∈ models g ∧ row.alt ∈ models g ∧
      ∃ alts, (row.null, alts) ∈ null_alt ∧ row.alt ∈ alts) ∧
    (∀ n alts, (n, alts) ∈ null_alt → (∀ a ∈ alts, a ∉ models g) →
      ∀ row ∈ getLRT cdf g, row.null ≠ n) := by
  constructor
  · intro row hrow
    obtain ⟨-, -, alts, -, -, -, hnm, ham, hfind, haa⟩ := mem_getLRT hrow
    exact ⟨hnm, ham, alts, List.mem_of_find?_eq_some hfind, haa⟩
  · intro n alts hreg habs row hrow hcontra
    obtain ⟨-, -, alts', -, -, -, -, ham, hfind, haa⟩ := mem_getLRT hrow
    rw [hcontra] at hfind
    rw [null_alt_find_of_mem hreg] at hfind
    injection hfind with hpair
    have h2 : alts = alts' := congrArg Prod.snd hpair
    subst h2
    exact habs row.alt haa ham

/-- Witness for C2 at the gene `gM01`. -/
theorem C2_lrt_rows_registry_witness :
    rowM01 ∈ getLRT cdf0 gM01 ∧
    (rowM01.null ∈ models gM01 ∧ rowM01.alt ∈ models gM01 ∧
      ∃ alts, (rowM01.null, alts) ∈ null_alt ∧ rowM01.alt ∈ alts) :=
  ⟨List.Mem.head _,
   (C2_lrt_rows_registry cdf0 gM01).1 rowM01 (List.Mem.head _)⟩

/-! ## Claim C3 -/

/-- C3: a retained pair with `lnl_alt < lnl_null` yields a row with
statistic and p-value unset and note "lnl1 < lnl0" (so the chi-squared
computation is skipped); every other row has an empty note and a set
p-value. -/
theorem C3_invalid_orientation (cdf : ℚ → ℕ → ℚ) (g : GeneResults)
    (row : LRTRow) (nd ad : ModelData) (hrow : row ∈ getLRT cdf g)
    (hn : cmlFind g row.null = some nd) (ha : cmlFind g row.alt = some ad) :
    (ad.lnl < nd.lnl →
      row.lrt = none ∧ row.pval = none ∧ row.note = "lnl1 < lnl0") ∧
    (¬ ad.lnl < nd.lnl → row.note = "" ∧ ∃ p, row.pval = some p) := by
  obtain ⟨nd', ad', -, hn', ha', heq, -, -, -, -⟩ := mem_getLRT hrow
  rw [hn] at hn'; rw [ha] at ha'
  injection hn' with hnd; injection ha' with had
  subst hnd; subst had
  constructor
  · intro h
    rw [heq]
    refine ⟨?_, ?_, ?_⟩ <;> simp [lrtRow, h]
  · intro h
    rw [heq]
    refine ⟨?_, ?_⟩ <;> simp [lrtRow, h]

/-- Witness for C3 at the inverted-orientation gene `gInv`. -/
theorem C3_invalid_orientation_witness :
    rowInv ∈ getLRT cdf0 gInv ∧
    cmlFind gInv rowInv.null = some md0 ∧
    cmlFind gInv rowInv.alt = some md2 ∧
    ((md2.lnl < md0.lnl →
      rowInv.lrt = none ∧ rowInv.pval = none ∧ rowInv.note = "lnl1 < lnl0") ∧
     (¬ md2.lnl < md0.lnl → rowInv.note = "" ∧ ∃ p, rowInv.pval = some p)) :=
  ⟨List.Mem.head _, rfl, rfl,
   C3_invalid_orientation cdf0 gInv rowInv md0 md2 (List.Mem.head _) rfl rfl⟩

/-! ## Claim C5 -/

/-- C5: a gene whose valid-comparison map is empty after restriction
yields an empty LRT table and triggers the warning; the engine does not
fail on this path. -/
theorem C5_empty_comparisons_warn (cdf : ℚ → ℕ → ℚ) (g : GeneResults)
    (h : validComparisons g = []) :
    getLRT cdf g = [] ∧ lrtEmptyWarning g = true := by
  constructor
  · simp [getLRT, h]
  · simp [lrtEmptyWarning, h]

/-- Witness for C5 at the gene `gBsA1`, which has only model bsA1 fit. -/
theorem C5_empty_comparisons_warn_witness :
    validComparisons gBsA1 = [] ∧
    (getLRT cdf0 gBsA1 = [] ∧ lrtEmptyWarning gBsA1 = true) :=
  ⟨by decide, C5_empty_comparisons_warn cdf0 gBsA1 (by decide)⟩

/-! ## Claim C4 -/

/-- Membership in the branch-site BEB extraction result. -/
theorem mem_getBebBs {gene model : String} {rows : List BsRow} {out : BsBebRow} :
    out ∈ getBebBs gene model rows ↔
      ∃ r ∈ rows, r.aa ≠ "-" ∧ (99 : ℚ)/100 ≤ r.p2a + r.p2b ∧
        out = ⟨gene, model, r.pos, r.aa, r.p2a + r.p2b⟩ := by
  simp only [getBebBs]
  split
  next hany =>
    simp only [List.mem_filter, List.mem_map]
    constructor
    · rintro ⟨⟨⟨r, hr, rfl⟩, haa⟩, hprob⟩
      exact ⟨r, hr, by simpa using haa, by simpa using hprob, rfl⟩
    · rintro ⟨r, hr, haa, hprob, rfl⟩
      exact ⟨⟨⟨r, hr, rfl⟩, by simpa using haa⟩, by simpa using hprob⟩
  next hany =>
    constructor
    · intro h
      exact absurd h (List.not_mem_nil _)
    · rintro ⟨r, hr, haa, hprob, rfl⟩
      exfalso
      apply hany
      rw [List.any_eq_true]
      refine ⟨⟨gene, model, r.pos, r.aa, r.p2a + r.p2b⟩, ?_, by simpa using hprob⟩
      rw [List.mem_filter]
      exact ⟨List.mem_map.mpr ⟨r, hr, rfl⟩, by simpa using haa⟩

/-- C4: a branch-site BEB row is kept iff its summed class-2a/2b
posterior probability is at least 0.99 and its amino acid is not the gap
marker; a site BEB row is kept iff its probability field carries the
two-asterisk marker (stripped before storage) and its amino acid is not
the gap marker, with a one-data-row site table treated as empty.  The
hypothesis `hf` states that pandas never infers dtype float64 for a
column entry containing the `**` marker. -/
theorem C4_beb_inclusion (gene model : String) (bsRows : List BsRow)
    (siteRows : List SiteRow) (isFloat : String → Bool)
    (hf : ∀ s, hasStar2 s = true → isFloat s = false) :
    (∀ out : BsBebRow, out ∈ getBebBs gene model bsRows ↔
      ∃ r ∈ bsRows, r.aa ≠ "-" ∧ (99 : ℚ)/100 ≤ r.p2a + r.p2b ∧
        out = ⟨gene, model, r.pos, r.aa, r.p2a + r.p2b⟩) ∧
    (∀ out : SiteBebRow,
      (∃ t, getBebSite isFloat gene model siteRows = some t ∧ out ∈ t) ↔
      ∃ r ∈ siteRows, siteRows.length ≠ 1 ∧ r.aa ≠ "-" ∧ hasStar2 r.prob = true ∧
        out = ⟨gene, model, r.pos, r.aa, stripStars r.prob, r.mean_w, r.err⟩) ∧
    (siteRows.length = 1 → getBebSite isFloat gene model siteRows = some []) := by
  refine ⟨fun out => mem_getBebBs, fun out => ?_, fun hlen => ?_⟩
  · simp only [getBebSite]
    split
    next hlen =>
      split
      next hfl =>
        split
        next hne =>
          constructor
          · rintro ⟨t, ht, hout⟩
            injection ht with ht2
            subst ht2
            rw [List.mem_map] at hout
            obtain ⟨r, hr2, rfl⟩ := hout
            rw [List.mem_filter] at hr2
            obtain ⟨hr1, hstar⟩ := hr2
            rw [List.mem_filter] at hr1
            obtain ⟨hr, haa⟩ := hr1
            exact ⟨r, hr, hlen, by simpa using haa, hstar, rfl⟩
          · rintro ⟨r, hr, -, haa, hstar, rfl⟩
            refine ⟨_, rfl, ?_⟩
            rw [List.mem_map]
            refine ⟨r, ?_, rfl⟩
            rw [List.mem_filter, List.mem_filter]
            exact ⟨⟨hr, by simpa using haa⟩, hstar⟩
        next hne =>
          constructor
          · rintro ⟨t, ht, -⟩
            cases ht
          · rintro ⟨r, hr, -, haa, hstar, -⟩
            exfalso
            apply hne
            have hmem : r ∈ (siteRows.filter fun r => r.aa != "-").filter
                (fun r => hasStar2 r.prob) := by
              rw [List.mem_filter, List.mem_filter]
              exact ⟨⟨hr, by simpa using haa⟩, hstar⟩
            rw [List.isEmpty_eq_false.mpr (List.ne_nil_of_mem hmem)]
            rfl
      next hfl =>
        constructor
        · rintro ⟨t, ht, -⟩
          cases ht
        · rintro ⟨r, hr, -, haa, hstar, -⟩
          exfalso
          have hall : (siteRows.filter fun r => r.aa != "-").all
              (fun r => isFloat r.prob) = true := by
            revert hfl
            cases (siteRows.filter fun r => r.aa != "-").all (fun r => isFloat r.prob) <;>
              simp
          rw [List.all_eq_true] at hall
          have hrf : r ∈ siteRows.filter fun r => r.aa != "-" := by
            rw [List.mem_filter]
            exact ⟨hr, by simpa using haa⟩
          have := hall r hrf
          rw [hf r.prob hstar] at this
          cases this
    next hlen =>
      constructor
      · rintro ⟨t, ht, hout⟩
        injection ht with ht2
        subst ht2
        cases hout
      · rintro ⟨r, -, hlen1, -⟩
        exact (hlen hlen1).elim
  · simp [getBebSite, hlen]

/-- Witness for C4 at the fixture rows. -/
theorem C4_beb_inclusion_witness :
    (∀ s, hasStar2 s = true → isFloat0 s = false) ∧
    ((∀ out : BsBebRow, out ∈ getBebBs "g" "M2" bsRows0 ↔
      ∃ r ∈ bsRows0, r.aa ≠ "-" ∧ (99 : ℚ)/100 ≤ r.p2a + r.p2b ∧
        out = ⟨"g", "M2", r.pos, r.aa, r.p2a + r.p2b⟩) ∧
    (∀ out : SiteBebRow,
      (∃ t, getBebSite isFloat0 "g" "M2" siteRows0 = some t ∧ out ∈ t) ↔
      ∃ r ∈ siteRows0, siteRows0.length ≠ 1 ∧ r.aa ≠ "-" ∧ hasStar2 r.prob = true ∧
        out = ⟨"g", "M2", r.pos, r.aa, stripStars r.prob, r.mean_w, r.err⟩) ∧
    (siteRows0.length = 1 → getBebSite isFloat0 "g" "M2" siteRows0 = some [])) :=
  ⟨fun _ _ => rfl,
   C4_beb_inclusion "g" "M2" bsRows0 siteRows0 isFloat0 (fun _ _ => rfl)⟩

/-! ## Claim C10 -/

/-- C10: with a data-row count different from one and no remaining row
carrying the `**` marker (in particular when every probability is a plain
float), `getBebSite` falls off the end and yields `None`; a `None` stored
as a model's BEB table makes `getSites`' concatenation fail. -/
theorem C10_site_none_breaks_getSites (isFloat : String → Bool)
    (gene model : String) (rows : List SiteRow)
    (hlen : rows.length ≠ 1)
    (hnost : ∀ r ∈ rows, r.aa ≠ "-" → hasStar2 r.prob = false) :
    getBebSite isFloat gene model rows = none ∧
    ∀ (g : GeneResults) (m : String) (d : ModelData),
      (m, d) ∈ g.codeml → d.beb = none → ∃ e, getSites g = .error e := by
  constructor
  · have hdf2 : (rows.filter fun r => r.aa != "-").filter
        (fun r => hasStar2 r.prob) = [] := by
      rw [List.filter_eq_nil_iff]
      intro r hr
      rw [List.mem_filter] at hr
      rw [hnost r hr.1 (by simpa using hr.2)]
      simp
    by_cases hfl : (rows.filter fun r => r.aa != "-").all (fun r => isFloat r.prob) = true
    · simp [getBebSite, hlen, hfl]
    · simp [getBebSite, hlen, hfl, hdf2]
  · intro g m d hmem hnone
    have hts : (none : Option (List BebEntry)) ∈ g.codeml.map (fun p => p.2.beb) := by
      rw [List.mem_map]
      exact ⟨(m, d), hmem, hnone⟩
    refine ⟨"TypeError: cannot concatenate object of type NoneType", ?_⟩
    unfold getSites pdConcatO
    rw [if_neg, if_pos]
    · rw [List.any_eq_true]
      exact ⟨none, hts, rfl⟩
    · rw [Bool.not_eq_true, List.isEmpty_eq_false]
      exact List.ne_nil_of_mem hts

/-- Witness for C10 at the plain-probability fixture. -/
theorem C10_site_none_breaks_getSites_witness :
    siteRowsPlain.length ≠ 1 ∧
    (∀ r ∈ siteRowsPlain, r.aa ≠ "-" → hasStar2 r.prob = false) ∧
    ("M2", mdNoneBeb) ∈ gNoneBeb.codeml ∧ mdNoneBeb.beb = none ∧
    (getBebSite isFloat0 "g" "M2" siteRowsPlain = none ∧
      ∃ e, getSites gNoneBeb = .error e) :=
  ⟨by decide, by decide, by decide, rfl,
   (C10_site_none_breaks_getSites isFloat0 "g" "M2" siteRowsPlain (by decide)
      (by decide)).1,
   (C10_site_none_breaks_getSites isFloat0 "g" "M2" siteRowsPlain (by decide)
      (by decide)).2 gNoneBeb "M2" mdNoneBeb (by decide) rfl⟩

/-! ## Claims C6, C7, C8, C9: the corpus aggregator and entry point -/

/-- C9: for every non-empty corpus, `parseCodeMl` fails before producing
any table: it passes the string `outdir.path` to the `EteResults`
constructor, whose `entry.path` access raises AttributeError on a str;
independently, unpacking its four-element return into the entry point's
three names raises ValueError. -/
theorem C9_parseCodeMl_faults (cdf : ℚ → ℕ → ℚ)
    (load : String → List (String × ModelData)) (d : DirEntry)
    (rest : List DirEntry) :
    (parseCodeMl cdf load (d :: rest)).1 =
      .error "AttributeError: 'str' object has no attribute 'path'" ∧
    ∀ r : List LRTRow × List String × List BranchRow × List BebEntry,
      unpack3 r = .error "ValueError: too many values to unpack (expected 3)" :=
  ⟨rfl, fun _ => rfl⟩

/-- C6 counterexample: a corpus whose branch-rate rows are empty
corpus-wide (one gene, only model bsA) on which the run reports no
warning at all — it fails with an AttributeError before writing or
warning — refuting the claimed warning-and-omission behaviour. -/
theorem C6_counterexample :
    corpusBranchRows loadBsA [dirG1] = [] ∧
    mainRun cdf0 loadBsA [dirG1] =
      (.error "AttributeError: 'str' object has no attribute 'path'", []) :=
  ⟨rfl, rfl⟩

/-- C6 amended: no run ever writes an empty `branches.csv`, but only
because every run fails with a Python error before writing any file and
logs no warning; the entry point itself has no empty-branch-table guard
and `branches.csv` is on its unconditional write list. -/
theorem C6_branches_never_written (cdf : ℚ → ℕ → ℚ)
    (load : String → List (String × ModelData)) (input : List DirEntry) :
    (∃ e, (mainRun cdf load input).1 = .error e) ∧
    (mainRun cdf load input).2 = [] ∧
    ∀ keys : List String, "branches.csv" ∈ writesOf keys := by
  refine ⟨?_, ?_, ?_⟩
  · cases input with
    | nil => exact ⟨"ValueError: No objects to concatenate", rfl⟩
    | cons d rest => exact ⟨"AttributeError: 'str' object has no attribute 'path'", rfl⟩
  · cases input with
    | nil => rfl
    | cons d rest => rfl
  · intro keys
    simp [writesOf]

/-- C7: evaluated at the failing input (a corpus whose gene has site
model M2 with a non-empty BEB table), the run fails with an
AttributeError; moreover no write list the entry point can produce
contains `beb.csv` — the program has no beb output at all. -/
theorem C7_beb_csv_never_written :
    mainRun cdf0 loadBeb [dirG1] =
      (.error "AttributeError: 'str' object has no attribute 'path'", []) ∧
    ∀ keys : List String, ((writesOf keys).contains "beb.csv") = false := by
  refine ⟨rfl, ?_⟩
  intro keys
  have hmem : "beb.csv" ∉ writesOf keys := by
    intro h
    rw [writesOf, List.mem_append] at h
    rcases h with h | h
    · rw [List.mem_map] at h
      obtain ⟨k, -, hk⟩ := h
      have hlen := congrArg String.length hk
      rw [String.length_append, String.length_append] at hlen
      have h6 : ("model-" : String).length = 6 := rfl
      have h4 : (".csv" : String).length = 4 := rfl
      have h7 : ("beb.csv" : String).length = 7 := rfl
      rw [h6, h4, h7] at hlen
      omega
    · simp at h
  rcases hc : (writesOf keys).contains "beb.csv" with - | -
  · rfl
  · exact absurd (List.elem_iff.mp hc) hmem

/-- C8 counterexample: on a one-gene corpus, the aggregation loop (with
the constructor-argument slip repaired so that parsing happens at all)
invokes the result-file parser three times, not once per gene. -/
theorem C8_counterexample :
    (parseGenesFixed cdf0 loadBeb [dirG1]).2 ≠ [dirG1].length := by decide

/-- C8 amended: on every corpus the loop completes on, each gene's result
files are parsed exactly three times — once per derived view — because
`parseCodeMl` constructs a fresh `EteResults` for each view. -/
theorem C8_three_parses_per_view (cdf : ℚ → ℕ → ℚ)
    (load : String → List (String × ModelData)) (input : List DirEntry)
    (h : ∃ out, (parseGenesFixed cdf load input).1 = .ok out) :
    (parseGenesFixed cdf load input).2 = 3 * input.length := by
  induction input with
  | nil => rfl
  | cons d rest ih =>
    obtain ⟨out, hout⟩ := h
    simp only [parseGenesFixed, eteGeneCounted] at hout ⊢
    rcases hgs : getSites ⟨d.name, load d.path⟩ with e | beb
    · rw [hgs] at hout
      simp at hout
    · rw [hgs] at hout
      rcases hrec : parseGenesFixed cdf load rest with ⟨res, cnt⟩
      rw [hrec] at hout
      rcases res with e | tpl
      · simp at hout
      · rcases tpl with ⟨ls, bs, ds⟩
        have h1 : (parseGenesFixed cdf load rest).1 = .ok (ls, bs, ds) := by rw [hrec]
        have hcnt := ih ⟨(ls, bs, ds), h1⟩
        rw [hrec] at hcnt
        simp only [List.length_cons]
        show 1 + 1 + 1 + cnt = 3 * (rest.length + 1)
        simp only at hcnt
        omega

/-- Witness for the C8 amended theorem at the one-gene corpus. -/
theorem C8_three_parses_per_view_witness :
    (∃ out, (parseGenesFixed cdf0 loadBeb [dirG1]).1 = .ok out) ∧
    (parseGenesFixed cdf0 loadBeb [dirG1]).2 = 3 * [dirG1].length :=
  ⟨⟨_, rfl⟩, C8_three_parses_per_view cdf0 loadBeb [dirG1] ⟨_, rfl⟩⟩

end EteTools
